import Mathlib

/-!
Verification of the event-triggered APIM synchronization pipeline of the
azure-apim-operator repository.  The Go sources are shallowly embedded:
HTTP and Kubernetes side effects become explicit environment records whose
fields give the outcome of each external call, and each reconciler becomes
a total Lean function from such an environment (plus, for the dispatcher,
an explicit store of live work orders) to a result record carrying the
controller outcome together with the trace of operations it issued.
-/

namespace AzureApimOperator

/-! ## OpenAPI fetch with bounded retry
Embedding of fetchOpenAPIDefinitionWithRetry
(internal/controller/apimapideployment_controller.go).  One HTTP attempt is
described by the outcome of each of its steps: the GET itself, reading the
body, the status code, and closing the body. -/

/-- Outcome record of one HTTP GET attempt, mirroring the values the Go loop
body inspects: the error from http.Get, the body bytes, the error from
io.ReadAll, the status code and status line, and the error from Body.Close. -/
structure FetchAttempt where
  getError : Option String
  body : String
  readError : Option String
  statusCode : Nat
  status : String
  closeError : Option String
deriving Repr, DecidableEq

/-- Result of one iteration of the retry loop: either the function returns
(with the body or a terminal close error), or the iteration failed and the
loop continues with an updated lastErr. -/
inductive FetchIter where
  | finished (r : Except String String)
  | failed (lastErr : String)
deriving Repr

/-- One iteration of the loop body of fetchOpenAPIDefinitionWithRetry,
translated branch by branch from the Go source. -/
def fetchIterate (a : FetchAttempt) : FetchIter :=
  match a.getError with
  | some e => .failed (("GET error: ") ++ e)
  | none =>
    match a.readError with
    | some e => .failed (("read body error: ") ++ e)
    | none =>
      if 200 ≤ a.statusCode ∧ a.statusCode < 300 then
        match a.closeError with
        | some ce => .finished (.error (("close response body: ") ++ ce))
        | none => .finished (.ok a.body)
      else
        match a.closeError with
        | some ce =>
            .failed (("unexpected status: ") ++ a.status ++ ("\nbody: ") ++ a.body
              ++ (" (close error: ") ++ ce ++ (")"))
        | none =>
            .failed (("unexpected status: ") ++ a.status ++ ("\nbody: ") ++ a.body)

/-- Final result of the fetch together with the observable retry behaviour:
how many GET attempts were made and which sleeps were performed (in seconds,
in order). -/
structure FetchResult where
  result : Except String String
  attempts : Nat
  delays : List Nat
deriving Repr

/-- The error message produced when the attempt budget is exhausted,
mirroring fmt.Errorf with a possibly-nil wrapped lastErr. -/
def exhaustedMessage (maxRetries : Nat) (lastErr : Option String) : String :=
  ("openapi fetch failed after ") ++ toString maxRetries ++ (" attempts: ") ++
    (match lastErr with
     | some e => e
     | none => ("%!w(<nil>)"))

/-- The retry loop: i is the current loop index, fuel the remaining
iterations (maxRetries - i), lastErr the last recorded failure.  A failed
iteration sleeps 2 <<< i seconds (2, 4, 8, ...) before the next one, also
after the final failed attempt, exactly as the Go loop does. -/
def fetchAux (attempt : Nat → FetchAttempt) (maxRetries i : Nat) :
    Nat → Option String → FetchResult
  | 0, lastErr => ⟨.error (exhaustedMessage maxRetries lastErr), 0, []⟩
  | fuel + 1, _ =>
    match fetchIterate (attempt i) with
    | .finished r => ⟨r, 1, []⟩
    | .failed e =>
      let rest := fetchAux attempt maxRetries (i + 1) fuel (some e)
      ⟨rest.result, rest.attempts + 1, (2 <<< i) :: rest.delays⟩

/-- Embedding of fetchOpenAPIDefinitionWithRetry: run up to maxRetries
attempts starting at index 0 with no recorded error. -/
def fetchOpenAPIDefinitionWithRetry (attempt : Nat → FetchAttempt)
    (maxRetries : Nat) : FetchResult :=
  fetchAux attempt maxRetries 0 maxRetries none

/-! ## Control-plane client: product upsert
Embedding of UpsertProduct (internal/apim/apim.go). -/

/-- Configuration for UpsertProduct, mirroring APIMProductConfig. -/
structure APIMProductConfig where
  subscriptionID : String
  resourceGroup : String
  serviceName : String
  productID : String
  displayName : String
  description : String
  bearerToken : String
  published : Bool
deriving Repr, DecidableEq

/-- The properties object of the product body submitted by UpsertProduct. -/
structure ProductProperties where
  displayName : String
  description : String
  subscriptionRequired : Bool
  approvalRequired : Bool
  subscriptionsLimit : Nat
  state : String
deriving Repr, DecidableEq

/-- The PUT request UpsertProduct issues: target product id, the precondition
header, and the JSON body properties. -/
structure ProductRequest where
  productID : String
  ifMatch : String
  properties : ProductProperties
deriving Repr, DecidableEq

/-- Embedding of UpsertProduct: none when the function returns early on an
empty ProductID, otherwise the request it submits.  The fixed values of
subscriptionRequired, approvalRequired and subscriptionsLimit, and the
state derived from Published, are taken verbatim from the source. -/
def upsertProductRequest (config : APIMProductConfig) : Option ProductRequest :=
  if config.productID = ("") then none
  else
    let state := if config.published then ("published") else ("notPublished")
    some
      { productID := config.productID
        ifMatch := ("*")
        properties :=
          { displayName := config.displayName
            description := config.description
            subscriptionRequired := true
            approvalRequired := false
            subscriptionsLimit := 1000
            state := state } }

/-! ## Control-plane client: conditional import
Embedding of GetAPI and ImportOpenAPIDefinitionToAPIM
(test/e2e/e2e_test.go lines 745-907, the etag-aware revision of the apim
package import function). -/

/-- Removes the given leading text from a string when present, mirroring
strings.TrimPrefix from the Go standard library. -/
def trimLeading (p s : String) : String :=
  if s.startsWith p then s.drop p.length else s

/-- Removes leading and trailing double quotes, mirroring
strings.Trim(s, quote). -/
def trimQuotes (s : String) : String :=
  (s.dropWhile (· = '"')).dropRightWhile (· = '"')

/-- Normalization GetAPI applies to a non-empty ETag response header: drop a
weak-etag W/ marker, strip surrounding quotes and whitespace, then re-quote
for use in an If-Match header. -/
def normalizeEtag (raw : String) : String :=
  if raw = ("") then raw
  else ("\"") ++ (trimQuotes (trimLeading ("W/") raw)).trim ++ ("\"")

/-- Outcome of GetAPI as seen by its caller, mirroring the Go triple
(etag, exists, err): a failed lookup, a 404 (the API does not exist), or a
found API with its normalized etag (possibly empty when the response had no
ETag header). -/
inductive GetAPIOutcome where
  | fail
  | notFound
  | found (etag : String)
deriving Repr, DecidableEq

/-- Embedding of GetAPI from the response of the management endpoint: a
transport error or a non-404 error status yield fail, a 404 yields notFound,
and success yields the normalized etag. -/
def getAPI (respErr : Bool) (statusCode : Nat) (etagHeader : String) :
    GetAPIOutcome :=
  if respErr then .fail
  else if statusCode = 404 then .notFound
  else if 300 ≤ statusCode then .fail
  else .found (normalizeEtag etagHeader)

/-- The observable shape of the PUT request built by
ImportOpenAPIDefinitionToAPIM: the composite api id, the If-Match header,
whether the createRevision query parameter is set, and whether GetAPI was
consulted before the PUT. -/
structure ImportRequest where
  apiId : String
  ifMatch : String
  createRevision : Bool
  getAPICalled : Bool
deriving Repr, DecidableEq

/-- Embedding of ImportOpenAPIDefinitionToAPIM up to the request it submits.
With no revision the function first calls GetAPI and selects the If-Match
value from its outcome (the etag for an existing API with a non-empty tag,
the wildcard otherwise); with a revision it skips the lookup, uses the
wildcard, appends the rev= suffix to the api id and sets createRevision. -/
def buildImportRequest (apiID revision : String) (g : GetAPIOutcome) :
    ImportRequest :=
  let apiId := if revision ≠ ("") then apiID ++ (";rev=") ++ revision else apiID
  let etag :=
    if revision = ("") then
      match g with
      | .fail => ("*")
      | .found existingEtag =>
          if existingEtag ≠ ("") then existingEtag else ("*")
      | .notFound => ("*")
    else ("*")
  { apiId := apiId
    ifMatch := etag
    createRevision := revision ≠ ("")
    getAPICalled := revision = ("") }

/-! ## Data model
Embeddings of the api/v1 record types used by the pipeline.  The Go field
RoutePrefix is rendered here as routePrefixVal. -/

/-- Embedding of APIMAPISpec (api/v1 apimapi_types.go): the owner-authored
declaration of one API. -/
structure APIMAPISpec where
  serviceURL : String
  routePrefixVal : String
  openAPIDefinitionURL : String
  productIDs : List String
  tagIDs : List String
  apimService : String
  apiID : String
  subscriptionRequired : Bool
deriving Repr, DecidableEq

/-- Embedding of APIMAPIStatus: the observed state written by the executor
and read by the status projector. -/
structure APIMAPIStatus where
  importedAt : String
  status : String
  apiHost : String
  developerPortalHost : String
deriving Repr, DecidableEq

/-- Embedding of APIMServiceSpec (api/v1 apimservice_types.go): coordinates
of one APIM service instance. -/
structure APIMServiceSpec where
  name : String
  resourceGroup : String
  subscription : String
deriving Repr, DecidableEq

/-- Embedding of APIMAPIDeploymentSpec (api/v1 apimapideployment_types.go):
the point-in-time snapshot carried by a work order. -/
structure APIMAPIDeploymentSpec where
  serviceURL : String
  routePrefixVal : String
  openAPIDefinitionURL : String
  productIDs : List String
  tagIDs : List String
  apimService : String
  subscription : String
  resourceGroup : String
  apiID : String
  revision : String
  subscriptionRequired : Bool
deriving Repr, DecidableEq

/-- A live APIMAPIDeployment object in the cluster store: its object name
and its spec. -/
structure WorkOrder where
  name : String
  spec : APIMAPIDeploymentSpec
deriving Repr, DecidableEq

/-! ## Readiness detector and work-order dispatcher
Embedding of ReplicaSetWatcherReconciler (the revision of
replicasetwatcher_controller.go with the decommission filter and the
edge-triggered update predicate). -/

/-- The fields of a ReplicaSet the watcher inspects: the desired replica
count (a nullable pointer in Go), the ready replica count from status, and
the app.kubernetes.io/name label (empty string when absent). -/
structure ReplicaSetModel where
  specReplicas : Option Int
  readyReplicas : Int
  appNameLabel : String
deriving Repr, DecidableEq

/-- The scaled-down-to-zero test the watcher applies in three places:
rs.Spec.Replicas != nil && *rs.Spec.Replicas == 0. -/
def rsScaledToZero (rs : ReplicaSetModel) : Bool :=
  match rs.specReplicas with
  | some n => decide (n = 0)
  | none => false

/-- Embedding of the CreateFunc event predicate of SetupWithManager: reject
scaled-down revisions, then admit only ReplicaSets that already have ready
replicas. -/
def replicaSetCreatePred (rs : ReplicaSetModel) : Bool :=
  if rsScaledToZero rs then false
  else decide (0 < rs.readyReplicas)

/-- Embedding of the UpdateFunc event predicate of SetupWithManager: reject
scaled-down revisions, then admit only transitions where ReadyReplicas moves
from 0 to a positive count. -/
def replicaSetUpdatePred (oldRS newRS : ReplicaSetModel) : Bool :=
  if rsScaledToZero newRS then false
  else decide (oldRS.readyReplicas = 0) && decide (0 < newRS.readyReplicas)

/-- A sequence of status notifications for one ReplicaSet, all sharing the
desired replica count and label, with the given ready counts. -/
def mkReadySeq (specReplicas : Option Int) (label : String)
    (counts : List Int) : List ReplicaSetModel :=
  counts.map (fun c => ⟨specReplicas, c, label⟩)

/-- The admit/reject decision of the update predicate for each consecutive
pair of notifications in a sequence. -/
def updateSignals (rss : List ReplicaSetModel) : List Bool :=
  (rss.zip rss.tail).map (fun p => replicaSetUpdatePred p.1 p.2)

/-- Result of a Kubernetes Get as the controllers branch on it. -/
inductive K8sGet where
  | found
  | notFound
  | errored
deriving Repr, DecidableEq

/-- The reconcile outcome of a controller run: a clean return, a requeue
after a fixed delay, or an error return (which controller-runtime also
requeues, with backoff). -/
inductive DeployOutcome where
  | done
  | requeueAfter (secs : Nat)
  | errored
deriving Repr, DecidableEq

/-- Whether an outcome causes the request to be retried by
controller-runtime: both an explicit RequeueAfter and an error return do. -/
def DeployOutcome.isRequeue : DeployOutcome → Bool
  | .done => false
  | .requeueAfter _ => true
  | .errored => true

/-- Store-affecting operations the dispatcher issues, in order: deleting the
existing work order, the fixed sleep after the delete, and creating the
replacement. -/
inductive DispatchAction where
  | deleteExisting
  | wait (secs : Nat)
  | createOrder
deriving Repr, DecidableEq

/-- Construction of the replacement APIMAPIDeployment from the current
APIMAPI and APIMService snapshot (Reconcile lines building apiDeployment);
the Revision field is not set by the dispatcher and stays empty. -/
def mkAPIMAPIDeployment (appName : String) (api : APIMAPISpec)
    (svc : APIMServiceSpec) : WorkOrder :=
  { name := appName
    spec :=
      { serviceURL := api.serviceURL
        routePrefixVal := api.routePrefixVal
        openAPIDefinitionURL := api.openAPIDefinitionURL
        productIDs := api.productIDs
        tagIDs := api.tagIDs
        apimService := api.apimService
        subscription := svc.subscription
        resourceGroup := svc.resourceGroup
        apiID := api.apiID
        revision := ("")
        subscriptionRequired := api.subscriptionRequired } }

/-- Environment of one watcher reconcile run: the ReplicaSet that triggered
it and the outcome of every external call the run may make. -/
structure WatcherEnv where
  rs : ReplicaSetModel
  rsGet : K8sGet
  apimApiGet : K8sGet
  apimApi : APIMAPISpec
  nsReadOk : Bool
  apimServiceGet : K8sGet
  apimService : APIMServiceSpec
  getExistingErrored : Bool
  deleteOk : Bool
  listPodsOk : Bool
  readyPodFound : Bool
  createOk : Bool
deriving Repr, DecidableEq

/-- Result of a watcher run: the controller outcome, the store of live work
orders for this application after the run, every store state the run passed
through (initial state included), and the store operations issued. -/
structure WatcherResult where
  outcome : DeployOutcome
  store : List WorkOrder
  states : List (List WorkOrder)
  trace : List DispatchAction
deriving Repr, DecidableEq

/-- Tail of the watcher run after the dispatcher step: list pods, require a
running and ready owner pod (requeue after 10 seconds otherwise), then issue
the create; a failed create is only logged and the run still returns
cleanly. -/
def watcherFinish (env : WatcherEnv) (cur : List WorkOrder)
    (states : List (List WorkOrder)) (trace : List DispatchAction) :
    WatcherResult :=
  if !env.listPodsOk then ⟨.errored, cur, states, trace⟩
  else if !env.readyPodFound then ⟨.requeueAfter 10, cur, states, trace⟩
  else
    let newOrder :=
      mkAPIMAPIDeployment env.rs.appNameLabel env.apimApi env.apimService
    if env.createOk then
      ⟨.done, cur ++ [newOrder], states ++ [cur ++ [newOrder]],
        trace ++ [.createOrder]⟩
    else ⟨.done, cur, states, trace ++ [.createOrder]⟩

/-- The dispatcher step: look up an existing APIMAPIDeployment (found
exactly when the store holds one, unless the lookup itself errors), delete
it and sleep 2 seconds before proceeding, or proceed directly when none
exists. -/
def watcherDispatch (env : WatcherEnv) (store : List WorkOrder) :
    WatcherResult :=
  if env.getExistingErrored then ⟨.errored, store, [store], []⟩
  else if store.isEmpty then watcherFinish env store [store] []
  else if env.deleteOk then
    watcherFinish env store.tail [store, store.tail]
      [.deleteExisting, .wait 2]
  else ⟨.errored, store, [store], [.deleteExisting]⟩

/-- Embedding of ReplicaSetWatcherReconciler.Reconcile: fetch the
ReplicaSet, drop scaled-down revisions and unlabeled sets, resolve the
APIMAPI and APIMService declarations (a missing declaration ends the run
cleanly), then run the dispatcher step and the readiness check. -/
def replicaSetWatcherReconcile (env : WatcherEnv) (store : List WorkOrder) :
    WatcherResult :=
  match env.rsGet with
  | .notFound => ⟨.done, store, [store], []⟩
  | .errored => ⟨.errored, store, [store], []⟩
  | .found =>
    if rsScaledToZero env.rs then ⟨.done, store, [store], []⟩
    else if env.rs.appNameLabel = ("") then ⟨.done, store, [store], []⟩
    else
      match env.apimApiGet with
      | .notFound => ⟨.done, store, [store], []⟩
      | .errored => ⟨.errored, store, [store], []⟩
      | .found =>
        if !env.nsReadOk then ⟨.errored, store, [store], []⟩
        else
          match env.apimServiceGet with
          | .notFound => ⟨.done, store, [store], []⟩
          | .errored => ⟨.errored, store, [store], []⟩
          | .found => watcherDispatch env store

/-! ## Claims C4, C10, C1 -/

/-- Claim C4: with maxRetries = 5 and a source for which every attempt
fails, fetchOpenAPIDefinitionWithRetry makes exactly 5 GET attempts, sleeps
2, 4, 8, 16 and 32 seconds, and returns an error wrapping the failure of the
last (fifth) attempt rather than succeeding or failing in any other way. -/
theorem c4_fetch_retry_bound (attempt : Nat → FetchAttempt)
    (h : ∀ i, i < 5 → ∃ e, fetchIterate (attempt i) = FetchIter.failed e) :
    (fetchOpenAPIDefinitionWithRetry attempt 5).attempts = 5 ∧
    (fetchOpenAPIDefinitionWithRetry attempt 5).delays = [2, 4, 8, 16, 32] ∧
    ∃ e4, fetchIterate (attempt 4) = FetchIter.failed e4 ∧
      (fetchOpenAPIDefinitionWithRetry attempt 5).result =
        Except.error (exhaustedMessage 5 (some e4)) := by
  obtain ⟨e0, h0⟩ := h 0 (by omega)
  obtain ⟨e1, h1⟩ := h 1 (by omega)
  obtain ⟨e2, h2⟩ := h 2 (by omega)
  obtain ⟨e3, h3⟩ := h 3 (by omega)
  obtain ⟨e4, h4⟩ := h 4 (by omega)
  refine ⟨?_, ?_, e4, h4, ?_⟩ <;>
    simp [fetchOpenAPIDefinitionWithRetry, fetchAux, h0, h1, h2, h3, h4]

/-- Witness for C4 at a concrete always-failing source. -/
theorem c4_fetch_retry_bound_witness :
    (fetchOpenAPIDefinitionWithRetry
        (fun _ => ⟨some ("connection refused"), (""), none, 0, (""), none⟩)
        5).attempts = 5 ∧
    (fetchOpenAPIDefinitionWithRetry
        (fun _ => ⟨some ("connection refused"), (""), none, 0, (""), none⟩)
        5).delays = [2, 4, 8, 16, 32] := by
  have h := c4_fetch_retry_bound
    (fun _ => ⟨some ("connection refused"), (""), none, 0, (""), none⟩)
    (fun i _ => ⟨("GET error: ") ++ ("connection refused"), rfl⟩)
  exact ⟨h.1, h.2.1⟩

/-- Claim C10: whenever ProductID is non-empty, UpsertProduct submits a
product body whose properties have subscriptionRequired = true,
approvalRequired = false and subscriptionsLimit = 1000 regardless of the
input, and whose state is published exactly when the Published flag is
set. -/
theorem c10_upsert_product_fixed_properties (config : APIMProductConfig)
    (h : config.productID ≠ ("")) :
    ∃ r, upsertProductRequest config = some r ∧
      r.properties.subscriptionRequired = true ∧
      r.properties.approvalRequired = false ∧
      r.properties.subscriptionsLimit = 1000 ∧
      r.properties.state =
        (if config.published then ("published") else ("notPublished")) ∧
      r.properties.displayName = config.displayName := by
  unfold upsertProductRequest
  rw [if_neg h]
  exact ⟨_, rfl, rfl, rfl, rfl, rfl, rfl⟩

/-- Witness for C10 at a concrete unpublished product. -/
theorem c10_upsert_product_fixed_properties_witness :
    ∃ r, upsertProductRequest
        ⟨("sub"), ("rg"), ("svc"), ("starter"), ("Starter"), ("desc"),
          ("tok"), false⟩ = some r ∧
      r.properties.subscriptionRequired = true ∧
      r.properties.approvalRequired = false ∧
      r.properties.subscriptionsLimit = 1000 ∧
      r.properties.state =
        (if false then ("published") else ("notPublished")) ∧
      r.properties.displayName = ("Starter") :=
  c10_upsert_product_fixed_properties
    ⟨("sub"), ("rg"), ("svc"), ("starter"), ("Starter"), ("desc"),
      ("tok"), false⟩ (by decide)

/-- Claim C1: ImportOpenAPIDefinitionToAPIM submits the captured etag as the
If-Match precondition when updating an existing non-revisioned API (having
first consulted GetAPI), submits the wildcard when a revision is being
created (together with the rev= composite id and the createRevision flag),
and submits the wildcard when the API does not exist. -/
theorem c1_conditional_import (apiID revision : String) (g : GetAPIOutcome)
    (tag : String) :
    (revision = ("") → g = GetAPIOutcome.found tag → tag ≠ ("") →
      (buildImportRequest apiID revision g).ifMatch = tag ∧
      (buildImportRequest apiID revision g).getAPICalled = true) ∧
    (revision ≠ ("") →
      (buildImportRequest apiID revision g).ifMatch = ("*") ∧
      (buildImportRequest apiID revision g).createRevision = true ∧
      (buildImportRequest apiID revision g).apiId =
        apiID ++ (";rev=") ++ revision) ∧
    (revision = ("") → g = GetAPIOutcome.notFound →
      (buildImportRequest apiID revision g).ifMatch = ("*")) := by
  refine ⟨?_, ?_, ?_⟩
  · rintro hrev rfl htag
    subst hrev
    simp [buildImportRequest, htag]
  · intro hrev
    simp [buildImportRequest, hrev]
  · rintro hrev rfl
    subst hrev
    simp [buildImportRequest]

/-- Witness for C1: the three cases at concrete inputs (an existing API with
tag, a revisioned create, and a missing API). -/
theorem c1_conditional_import_witness :
    (buildImportRequest ("orders") ("")
        (GetAPIOutcome.found ("\"abc\""))).ifMatch = ("\"abc\"") ∧
    (buildImportRequest ("orders") ("2")
        (GetAPIOutcome.found ("\"abc\""))).ifMatch = ("*") ∧
    (buildImportRequest ("orders") ("")
        GetAPIOutcome.notFound).ifMatch = ("*") :=
  ⟨((c1_conditional_import ("orders") ("") (GetAPIOutcome.found ("\"abc\""))
      ("\"abc\"")).1 rfl rfl (by decide)).1,
   ((c1_conditional_import ("orders") ("2") (GetAPIOutcome.found ("\"abc\""))
      ("\"abc\"")).2.1 (by decide)).1,
   (c1_conditional_import ("orders") ("") GetAPIOutcome.notFound
      ("x")).2.2 rfl rfl⟩

/-- Claim C5: on the notification sequence with ready counts
0,0,3,3,3,0,0,3 and a positive desired replica count throughout, the update
event predicate admits exactly the two zero-to-positive transitions (the
second and the last consecutive pair) and rejects every other
notification. -/
theorem c5_edge_trigger_only (r : Int) (hr : 0 < r) (label : String) :
    updateSignals (mkReadySeq (some r) label [0, 0, 3, 3, 3, 0, 0, 3]) =
      [false, true, false, false, false, false, true] ∧
    (updateSignals (mkReadySeq (some r) label [0, 0, 3, 3, 3, 0, 0, 3])).count
        true = 2 := by
  have hr0 : r ≠ 0 := by omega
  have hflags : updateSignals
      (mkReadySeq (some r) label [0, 0, 3, 3, 3, 0, 0, 3]) =
      [false, true, false, false, false, false, true] := by
    simp [mkReadySeq, updateSignals, replicaSetUpdatePred, rsScaledToZero, hr0]
  exact ⟨hflags, by rw [hflags]; decide⟩

/-- Witness for C5 with desired replica count 3. -/
theorem c5_edge_trigger_only_witness :
    updateSignals (mkReadySeq (some 3) ("orders-api")
        [0, 0, 3, 3, 3, 0, 0, 3]) =
      [false, true, false, false, false, false, true] ∧
    (updateSignals (mkReadySeq (some 3) ("orders-api")
        [0, 0, 3, 3, 3, 0, 0, 3])).count true = 2 :=
  c5_edge_trigger_only 3 (by decide) ("orders-api")

/-- Claim C6: a ReplicaSet whose desired replica count is zero never yields
a readiness signal: the create and update event predicates both reject it
for every prior state and ready count, and a reconcile run triggered for it
issues no store operation (in particular no work-order create) and leaves
the store unchanged. -/
theorem c6_decommission_filter (oldRS rs : ReplicaSetModel)
    (env : WatcherEnv) (store : List WorkOrder)
    (h1 : rs.specReplicas = some 0) (h2 : env.rs.specReplicas = some 0) :
    replicaSetCreatePred rs = false ∧
    replicaSetUpdatePred oldRS rs = false ∧
    (replicaSetWatcherReconcile env store).trace = [] ∧
    (replicaSetWatcherReconcile env store).store = store := by
  have hz : rsScaledToZero rs = true := by simp [rsScaledToZero, h1]
  have hz2 : rsScaledToZero env.rs = true := by simp [rsScaledToZero, h2]
  refine ⟨by simp [replicaSetCreatePred, hz],
    by simp [replicaSetUpdatePred, hz], ?_, ?_⟩ <;>
    cases henv : env.rsGet <;>
      simp [replicaSetWatcherReconcile, henv, hz2]

/-- Witness for C6 at a concrete scaled-down ReplicaSet. -/
theorem c6_decommission_filter_witness :
    replicaSetCreatePred ⟨some 0, 3, ("orders-api")⟩ = false ∧
    replicaSetUpdatePred ⟨some 0, 0, ("orders-api")⟩
      ⟨some 0, 3, ("orders-api")⟩ = false ∧
    (replicaSetWatcherReconcile
        ⟨⟨some 0, 3, ("orders-api")⟩, K8sGet.found, K8sGet.found,
          ⟨("u"), ("p"), ("o"), [], [], ("s"), ("orders"), true⟩, true,
          K8sGet.found, ⟨("svc"), ("rg"), ("sub")⟩, false, true, true, true,
          true⟩ []).trace = [] ∧
    (replicaSetWatcherReconcile
        ⟨⟨some 0, 3, ("orders-api")⟩, K8sGet.found, K8sGet.found,
          ⟨("u"), ("p"), ("o"), [], [], ("s"), ("orders"), true⟩, true,
          K8sGet.found, ⟨("svc"), ("rg"), ("sub")⟩, false, true, true, true,
          true⟩ []).store = [] :=
  c6_decommission_filter ⟨some 0, 0, ("orders-api")⟩
    ⟨some 0, 3, ("orders-api")⟩
    ⟨⟨some 0, 3, ("orders-api")⟩, K8sGet.found, K8sGet.found,
      ⟨("u"), ("p"), ("o"), [], [], ("s"), ("orders"), true⟩, true,
      K8sGet.found, ⟨("svc"), ("rg"), ("sub")⟩, false, true, true, true,
      true⟩ [] rfl rfl

/-- The states a watcherFinish result can report: the states passed in,
possibly extended with the state after a successful create. -/
theorem watcherFinish_states_cases (env : WatcherEnv) (cur : List WorkOrder)
    (states : List (List WorkOrder)) (trace : List DispatchAction) :
    (watcherFinish env cur states trace).states = states ∨
    (watcherFinish env cur states trace).states = states ++
      [cur ++ [mkAPIMAPIDeployment env.rs.appNameLabel env.apimApi
        env.apimService]] := by
  unfold watcherFinish
  cases hl : env.listPodsOk <;> cases hp : env.readyPodFound <;>
    cases hc : env.createOk <;> simp [hl, hp, hc]

/-- The traces a watcherFinish result can report: the trace passed in,
possibly extended with the create of the replacement order. -/
theorem watcherFinish_trace_cases (env : WatcherEnv) (cur : List WorkOrder)
    (states : List (List WorkOrder)) (trace : List DispatchAction) :
    (watcherFinish env cur states trace).trace = trace ∨
    (watcherFinish env cur states trace).trace =
      trace ++ [DispatchAction.createOrder] := by
  unfold watcherFinish
  cases hl : env.listPodsOk <;> cases hp : env.readyPodFound <;>
    cases hc : env.createOk <;> simp [hl, hp, hc]

/-- The dispatcher step preserves the at-most-one invariant through every
intermediate store state, and any run that found an existing order and went
on to issue a create did so only after the delete and the wait. -/
theorem watcherDispatch_c2 (env : WatcherEnv) (store : List WorkOrder)
    (h : store.length ≤ 1) :
    (∀ s ∈ (watcherDispatch env store).states, s.length ≤ 1) ∧
    (store ≠ [] →
      DispatchAction.createOrder ∈ (watcherDispatch env store).trace →
      (watcherDispatch env store).trace =
        [DispatchAction.deleteExisting, DispatchAction.wait 2,
          DispatchAction.createOrder]) := by
  unfold watcherDispatch
  by_cases hex : env.getExistingErrored
  · simp only [hex, if_true]
    refine ⟨?_, by simp⟩
    intro s hs
    rw [List.mem_singleton] at hs
    subst hs
    exact h
  · simp only [hex, if_false, Bool.false_eq_true]
    by_cases hemp : store.isEmpty
    · rw [List.isEmpty_iff] at hemp
      subst hemp
      simp only [List.isEmpty_nil, if_true]
      constructor
      · intro s hs
        rcases watcherFinish_states_cases env [] [[]] [] with hst | hst
        · rw [hst] at hs
          rw [List.mem_singleton] at hs
          subst hs
          simp
        · rw [hst] at hs
          simp at hs
          rcases hs with hs | hs <;> subst hs <;> simp
      · intro hne
        exact absurd rfl hne
    · have hne : store ≠ [] := by
        intro hcon
        subst hcon
        simp at hemp
      have hlen1 : store.length = 1 := by
        rcases Nat.lt_or_ge store.length 1 with hlt | hge
        · exact absurd (List.eq_nil_of_length_eq_zero (by omega)) hne
        · omega
      have htail : store.tail = [] := by
        have : store.tail.length = 0 := by
          rw [List.length_tail, hlen1]
        exact List.eq_nil_of_length_eq_zero this
      have hempf : store.isEmpty = false := by
        cases hstore : store
        · exact absurd hstore hne
        · simp [hstore]
      simp only [hempf, Bool.false_eq_true, if_false]
      by_cases hdel : env.deleteOk
      · simp only [hdel, if_true]
        constructor
        · intro s hs
          rcases watcherFinish_states_cases env store.tail [store, store.tail]
              [.deleteExisting, .wait 2] with hst | hst
          · rw [hst, htail] at hs
            simp at hs
            rcases hs with hs | hs <;> subst hs
            · exact h
            · simp
          · rw [hst, htail] at hs
            simp at hs
            rcases hs with hs | hs | hs <;> subst hs
            · exact h
            · simp
            · simp
        · intro _ hmem
          rcases watcherFinish_trace_cases env store.tail [store, store.tail]
              [.deleteExisting, .wait 2] with htr | htr
          · rw [htr] at hmem
            simp at hmem
          · rw [htr]
            rfl
      · simp only [hdel, if_false, Bool.false_eq_true]
        constructor
        · intro s hs
          rw [List.mem_singleton] at hs
          subst hs
          exact h
        · intro _ hmem
          simp at hmem

/-- Claim C2: the at-most-one-in-flight invariant.  From a store holding at
most one live work order for the application, every intermediate store state
of a watcher reconcile run again holds at most one; and whenever the run
found an existing order and issued a create, the trace shows the delete of
the old order and the wait strictly before the create. -/
theorem c2_at_most_one_in_flight (env : WatcherEnv) (store : List WorkOrder)
    (h : store.length ≤ 1) :
    (∀ s ∈ (replicaSetWatcherReconcile env store).states, s.length ≤ 1) ∧
    (store ≠ [] →
      DispatchAction.createOrder ∈
        (replicaSetWatcherReconcile env store).trace →
      (replicaSetWatcherReconcile env store).trace =
        [DispatchAction.deleteExisting, DispatchAction.wait 2,
          DispatchAction.createOrder]) := by
  have hearly : ∀ out : DeployOutcome,
      (∀ s ∈ (WatcherResult.mk out store [store] []).states, s.length ≤ 1) ∧
      (store ≠ [] →
        DispatchAction.createOrder ∈
          (WatcherResult.mk out store [store] []).trace →
        (WatcherResult.mk out store [store] []).trace =
          [DispatchAction.deleteExisting, DispatchAction.wait 2,
            DispatchAction.createOrder]) := by
    intro out
    constructor
    · intro s hs
      rw [List.mem_singleton] at hs
      subst hs
      exact h
    · intro _ hmem
      simp at hmem
  obtain ⟨rs, rsGet, apiGet, api, nsOk, svcGet, svc, exErr, delOk, listOk,
    podOk, createOk⟩ := env
  cases rsGet with
  | notFound => exact hearly .done
  | errored => exact hearly .errored
  | found =>
    by_cases hz : rsScaledToZero rs
    · simp only [replicaSetWatcherReconcile, hz, if_true]
      exact hearly .done
    · simp only [replicaSetWatcherReconcile, hz, Bool.false_eq_true, if_false]
      by_cases hlab : rs.appNameLabel = ("")
      · simp only [hlab, if_true]
        exact hearly .done
      · simp only [hlab, if_false]
        cases apiGet with
        | notFound => exact hearly .done
        | errored => exact hearly .errored
        | found =>
          cases nsOk with
          | false => exact hearly .errored
          | true =>
            cases svcGet with
            | notFound => exact hearly .done
            | errored => exact hearly .errored
            | found => exact watcherDispatch_c2 _ store h

/-- Witness for C2 at a concrete store holding one existing order and a run
in which everything succeeds. -/
theorem c2_at_most_one_in_flight_witness :
    (∀ s ∈ (replicaSetWatcherReconcile
        ⟨⟨some 1, 3, ("orders-api")⟩, K8sGet.found, K8sGet.found,
          ⟨("u"), ("p"), ("o"), [], [], ("s"), ("orders"), true⟩, true,
          K8sGet.found, ⟨("svc"), ("rg"), ("sub")⟩, false, true, true, true,
          true⟩
        [mkAPIMAPIDeployment ("orders-api")
          ⟨("u"), ("p"), ("o"), [], [], ("s"), ("orders"), true⟩
          ⟨("svc"), ("rg"), ("sub")⟩]).states, s.length ≤ 1) ∧
    ([mkAPIMAPIDeployment ("orders-api")
        ⟨("u"), ("p"), ("o"), [], [], ("s"), ("orders"), true⟩
        ⟨("svc"), ("rg"), ("sub")⟩] ≠ ([] : List WorkOrder) →
      DispatchAction.createOrder ∈
        (replicaSetWatcherReconcile
          ⟨⟨some 1, 3, ("orders-api")⟩, K8sGet.found, K8sGet.found,
            ⟨("u"), ("p"), ("o"), [], [], ("s"), ("orders"), true⟩, true,
            K8sGet.found, ⟨("svc"), ("rg"), ("sub")⟩, false, true, true,
            true, true⟩
          [mkAPIMAPIDeployment ("orders-api")
            ⟨("u"), ("p"), ("o"), [], [], ("s"), ("orders"), true⟩
            ⟨("svc"), ("rg"), ("sub")⟩]).trace →
      (replicaSetWatcherReconcile
          ⟨⟨some 1, 3, ("orders-api")⟩, K8sGet.found, K8sGet.found,
            ⟨("u"), ("p"), ("o"), [], [], ("s"), ("orders"), true⟩, true,
            K8sGet.found, ⟨("svc"), ("rg"), ("sub")⟩, false, true, true,
            true, true⟩
          [mkAPIMAPIDeployment ("orders-api")
            ⟨("u"), ("p"), ("o"), [], [], ("s"), ("orders"), true⟩
            ⟨("svc"), ("rg"), ("sub")⟩]).trace =
        [DispatchAction.deleteExisting, DispatchAction.wait 2,
          DispatchAction.createOrder]) :=
  c2_at_most_one_in_flight _ _ (by decide)

/-! ## Sync executor
Embedding of APIMAPIDeploymentReconciler.Reconcile (the revision of
apimapideployment_controller.go with retrying fetch and product/tag
assignment).  The sequence of early returns in the Go function is rendered
as a chain of stage functions, each prepending the control-plane call it
issues to the calls of its continuation. -/

/-- Control-plane client operations available to the executor.  The client
also offers SetSubscriptionRequired (a PATCH of the subscriptionRequired
property); it appears here so that theorems can state whether the executor
ever invokes it. -/
inductive CPCall where
  | importDefinition
  | assignServiceUrl
  | assignProducts
  | assignTags
  | getServiceDetails
  | setSubscriptionRequired
deriving Repr, DecidableEq

/-- Defaulting applied by the SetSubscriptionRequired client operation to
its nullable flag (nil means required). -/
def setSubscriptionRequiredFlag (flag : Option Bool) : Bool :=
  flag.getD true

/-- Result of the final Kubernetes Delete as the executor branches on it. -/
inductive K8sDelete where
  | ok
  | notFound
  | errored
deriving Repr, DecidableEq

/-- Environment of one executor run: the work order it processes and the
outcome of every external call the run may make. -/
structure ExecutorEnv where
  getDeployment : K8sGet
  deployment : APIMAPIDeploymentSpec
  getApimApi : K8sGet
  fetchOk : Bool
  clientID : String
  tenantID : String
  tokenOk : Bool
  importOk : Bool
  serviceUrlOk : Bool
  productsOk : Bool
  tagsOk : Bool
  detailsOk : Bool
  statusUpdateOk : Bool
  deleteResult : K8sDelete
deriving Repr, DecidableEq

/-- Result of one executor run: the controller outcome, the control-plane
calls issued in order with their success, whether the APIMAPI status write
was attempted and succeeded, and whether the final work-order delete was
issued and succeeded. -/
structure ExecutorResult where
  outcome : DeployOutcome
  calls : List (CPCall × Bool)
  statusWrite : Option Bool
  deleteIssued : Bool
  deleted : Bool
deriving Repr, DecidableEq

/-- Prepends a successfully issued control-plane call to the record of a
continuation result, leaving every other field unchanged. -/
def withCall (c : CPCall) (r : ExecutorResult) : ExecutorResult :=
  { r with calls := (c, true) :: r.calls }

/-- Step 9: delete the work order; any delete error, a not-found included,
is returned as an error. -/
def execDelete (env : ExecutorEnv) : ExecutorResult :=
  match env.deleteResult with
  | .ok => ⟨.done, [], none, true, true⟩
  | .notFound => ⟨.errored, [], none, true, false⟩
  | .errored => ⟨.errored, [], none, true, false⟩

/-- Step 8b: write the APIMAPI status; a failed write returns the error
without deleting the work order. -/
def execStatusWrite (env : ExecutorEnv) : ExecutorResult :=
  if env.statusUpdateOk then
    let r := execDelete env
    { r with statusWrite := some true }
  else ⟨.errored, [], some false, false, false⟩

/-- Step 8a: read the service hosts; a failure returns the error without
deleting the work order. -/
def execDetails (env : ExecutorEnv) : ExecutorResult :=
  if env.detailsOk then withCall CPCall.getServiceDetails (execStatusWrite env)
  else ⟨.errored, [(CPCall.getServiceDetails, false)], none, false, false⟩

/-- Step 7: assign tags when any are configured (silently skipped
otherwise); a failure requeues after 60 seconds. -/
def execTags (env : ExecutorEnv) : ExecutorResult :=
  if env.deployment.tagIDs.isEmpty then execDetails env
  else if env.tagsOk then withCall CPCall.assignTags (execDetails env)
  else ⟨.requeueAfter 60, [(CPCall.assignTags, false)], none, false, false⟩

/-- Step 6: assign products when any are configured (silently skipped
otherwise); a failure requeues after 60 seconds. -/
def execProducts (env : ExecutorEnv) : ExecutorResult :=
  if env.deployment.productIDs.isEmpty then execTags env
  else if env.productsOk then withCall CPCall.assignProducts (execTags env)
  else
    ⟨.requeueAfter 60, [(CPCall.assignProducts, false)], none, false, false⟩

/-- Step 5: patch the backend service URL; a failure requeues after 60
seconds. -/
def execServiceUrl (env : ExecutorEnv) : ExecutorResult :=
  if env.serviceUrlOk then withCall CPCall.assignServiceUrl (execProducts env)
  else
    ⟨.requeueAfter 60, [(CPCall.assignServiceUrl, false)], none, false,
      false⟩

/-- Step 4: import the OpenAPI definition; a failure requeues after 60
seconds. -/
def execImport (env : ExecutorEnv) : ExecutorResult :=
  if env.importOk then withCall CPCall.importDefinition (execServiceUrl env)
  else
    ⟨.requeueAfter 60, [(CPCall.importDefinition, false)], none, false,
      false⟩

/-- Embedding of APIMAPIDeploymentReconciler.Reconcile: fetch the work
order and its APIMAPI (a missing record ends the run cleanly), fetch the
OpenAPI document with retry (requeue after 60 seconds on exhaustion), check
the identity environment variables (error return when unset), obtain a
token (requeue after 30 seconds on failure), then run the control-plane
sequence, the status write and the final delete. -/
def reconcileAPIMAPIDeployment (env : ExecutorEnv) : ExecutorResult :=
  match env.getDeployment with
  | .notFound => ⟨.done, [], none, false, false⟩
  | .errored => ⟨.errored, [], none, false, false⟩
  | .found =>
    match env.getApimApi with
    | .notFound => ⟨.done, [], none, false, false⟩
    | .errored => ⟨.errored, [], none, false, false⟩
    | .found =>
      if !env.fetchOk then ⟨.requeueAfter 60, [], none, false, false⟩
      else if env.clientID = ("") ∨ env.tenantID = ("") then
        ⟨.errored, [], none, false, false⟩
      else if !env.tokenOk then ⟨.requeueAfter 30, [], none, false, false⟩
      else execImport env

/-! ## Executor stage lemmas -/

/-- A result requeues on any recorded failure: whenever some issued
control-plane call failed, or the status write failed, the outcome is a
retried one and the work-order delete was not issued. -/
def ReqOnFail (r : ExecutorResult) : Prop :=
  ((∃ c ∈ r.calls, c.2 = false) ∨ r.statusWrite = some false) →
    r.outcome.isRequeue = true ∧ r.deleteIssued = false

/-- A result issues the delete only at the very end: when the delete was
issued, every recorded call succeeded, the status write succeeded, and the
outcome and deletion success are those of the delete step itself. -/
def DeleteLast (env : ExecutorEnv) (r : ExecutorResult) : Prop :=
  r.deleteIssued = true →
    (∀ c ∈ r.calls, c.2 = true) ∧ r.statusWrite = some true ∧
    r.outcome = (execDelete env).outcome ∧ r.deleted = (execDelete env).deleted

/-- Prepending a successful call preserves ReqOnFail. -/
theorem reqOnFail_withCall (c : CPCall) (r : ExecutorResult)
    (h : ReqOnFail r) : ReqOnFail (withCall c r) := by
  rintro (⟨x, hx, hxf⟩ | hsw)
  · rcases List.mem_cons.mp hx with h1 | h2
    · rw [h1] at hxf
      simp at hxf
    · exact h (Or.inl ⟨x, h2, hxf⟩)
  · exact h (Or.inr hsw)

/-- Prepending a successful call preserves DeleteLast. -/
theorem deleteLast_withCall (env : ExecutorEnv) (c : CPCall)
    (r : ExecutorResult) (h : DeleteLast env r) :
    DeleteLast env (withCall c r) := by
  intro hd
  obtain ⟨hall, hsw, hout, hdel⟩ := h hd
  refine ⟨?_, hsw, hout, hdel⟩
  intro x hx
  rcases List.mem_cons.mp hx with h1 | h2
  · rw [h1]
  · exact hall x h2

/-- ReqOnFail for the status-write stage. -/
theorem execStatusWrite_reqOnFail (env : ExecutorEnv) :
    ReqOnFail (execStatusWrite env) := by
  unfold ReqOnFail execStatusWrite
  by_cases hs : env.statusUpdateOk <;>
    cases hd : env.deleteResult <;>
      simp [execDelete, hs, hd, DeployOutcome.isRequeue]

/-- DeleteLast for the status-write stage. -/
theorem execStatusWrite_deleteLast (env : ExecutorEnv) :
    DeleteLast env (execStatusWrite env) := by
  unfold DeleteLast execStatusWrite
  by_cases hs : env.statusUpdateOk <;>
    cases hd : env.deleteResult <;>
      simp [execDelete, hs, hd]

/-- ReqOnFail for the service-details stage. -/
theorem execDetails_reqOnFail (env : ExecutorEnv) :
    ReqOnFail (execDetails env) := by
  unfold execDetails
  by_cases hd : env.detailsOk
  · simp only [hd, if_true]
    exact reqOnFail_withCall _ _ (execStatusWrite_reqOnFail env)
  · simp only [hd, Bool.false_eq_true, if_false]
    intro _
    exact ⟨rfl, rfl⟩

/-- DeleteLast for the service-details stage. -/
theorem execDetails_deleteLast (env : ExecutorEnv) :
    DeleteLast env (execDetails env) := by
  unfold execDetails
  by_cases hd : env.detailsOk
  · simp only [hd, if_true]
    exact deleteLast_withCall env _ _ (execStatusWrite_deleteLast env)
  · simp only [hd, Bool.false_eq_true, if_false]
    intro hdel
    simp at hdel

/-- The details call is on record whenever the delete was issued. -/
theorem execDetails_mem (env : ExecutorEnv)
    (h : (execDetails env).deleteIssued = true) :
    (CPCall.getServiceDetails, true) ∈ (execDetails env).calls := by
  revert h
  unfold execDetails
  by_cases hd : env.detailsOk
  · simp only [hd, if_true]
    intro _
    exact List.mem_cons_self _ _
  · simp only [hd, Bool.false_eq_true, if_false]
    intro hdel
    simp at hdel

/-- ReqOnFail for the tag-assignment stage. -/
theorem execTags_reqOnFail (env : ExecutorEnv) :
    ReqOnFail (execTags env) := by
  unfold execTags
  by_cases he : env.deployment.tagIDs.isEmpty
  · simp only [he, if_true]
    exact execDetails_reqOnFail env
  · by_cases ht : env.tagsOk
    · simp only [he, ht, Bool.false_eq_true, if_false, if_true]
      exact reqOnFail_withCall _ _ (execDetails_reqOnFail env)
    · simp only [he, ht, Bool.false_eq_true, if_false]
      intro _
      exact ⟨rfl, rfl⟩

/-- DeleteLast for the tag-assignment stage. -/
theorem execTags_deleteLast (env : ExecutorEnv) :
    DeleteLast env (execTags env) := by
  unfold execTags
  by_cases he : env.deployment.tagIDs.isEmpty
  · simp only [he, if_true]
    exact execDetails_deleteLast env
  · by_cases ht : env.tagsOk
    · simp only [he, ht, Bool.false_eq_true, if_false, if_true]
      exact deleteLast_withCall env _ _ (execDetails_deleteLast env)
    · simp only [he, ht, Bool.false_eq_true, if_false]
      intro hdel
      simp at hdel

/-- The details call survives the tag stage. -/
theorem execTags_mem (env : ExecutorEnv)
    (h : (execTags env).deleteIssued = true) :
    (CPCall.getServiceDetails, true) ∈ (execTags env).calls := by
  revert h
  unfold execTags
  by_cases he : env.deployment.tagIDs.isEmpty
  · simp only [he, if_true]
    exact execDetails_mem env
  · by_cases ht : env.tagsOk
    · simp only [he, ht, Bool.false_eq_true, if_false, if_true]
      intro hdel
      exact List.mem_cons_of_mem _ (execDetails_mem env hdel)
    · simp only [he, ht, Bool.false_eq_true, if_false]
      intro hdel
      simp at hdel

/-- ReqOnFail for the product-assignment stage. -/
theorem execProducts_reqOnFail (env : ExecutorEnv) :
    ReqOnFail (execProducts env) := by
  unfold execProducts
  by_cases he : env.deployment.productIDs.isEmpty
  · simp only [he, if_true]
    exact execTags_reqOnFail env
  · by_cases hp : env.productsOk
    · simp only [he, hp, Bool.false_eq_true, if_false, if_true]
      exact reqOnFail_withCall _ _ (execTags_reqOnFail env)
    · simp only [he, hp, Bool.false_eq_true, if_false]
      intro _
      exact ⟨rfl, rfl⟩

/-- DeleteLast for the product-assignment stage. -/
theorem execProducts_deleteLast (env : ExecutorEnv) :
    DeleteLast env (execProducts env) := by
  unfold execProducts
  by_cases he : env.deployment.productIDs.isEmpty
  · simp only [he, if_true]
    exact execTags_deleteLast env
  · by_cases hp : env.productsOk
    · simp only [he, hp, Bool.false_eq_true, if_false, if_true]
      exact deleteLast_withCall env _ _ (execTags_deleteLast env)
    · simp only [he, hp, Bool.false_eq_true, if_false]
      intro hdel
      simp at hdel

/-- The details call survives the product stage. -/
theorem execProducts_mem (env : ExecutorEnv)
    (h : (execProducts env).deleteIssued = true) :
    (CPCall.getServiceDetails, true) ∈ (execProducts env).calls := by
  revert h
  unfold execProducts
  by_cases he : env.deployment.productIDs.isEmpty
  · simp only [he, if_true]
    exact execTags_mem env
  · by_cases hp : env.productsOk
    · simp only [he, hp, Bool.false_eq_true, if_false, if_true]
      intro hdel
      exact List.mem_cons_of_mem _ (execTags_mem env hdel)
    · simp only [he, hp, Bool.false_eq_true, if_false]
      intro hdel
      simp at hdel

/-- ReqOnFail for the service-URL stage. -/
theorem execServiceUrl_reqOnFail (env : ExecutorEnv) :
    ReqOnFail (execServiceUrl env) := by
  unfold execServiceUrl
  by_cases hu : env.serviceUrlOk
  · simp only [hu, if_true]
    exact reqOnFail_withCall _ _ (execProducts_reqOnFail env)
  · simp only [hu, Bool.false_eq_true, if_false]
    intro _
    exact ⟨rfl, rfl⟩

/-- DeleteLast for the service-URL stage. -/
theorem execServiceUrl_deleteLast (env : ExecutorEnv) :
    DeleteLast env (execServiceUrl env) := by
  unfold execServiceUrl
  by_cases hu : env.serviceUrlOk
  · simp only [hu, if_true]
    exact deleteLast_withCall env _ _ (execProducts_deleteLast env)
  · simp only [hu, Bool.false_eq_true, if_false]
    intro hdel
    simp at hdel

/-- The service-URL and details calls are on record whenever the delete was
issued after the service-URL stage. -/
theorem execServiceUrl_mem (env : ExecutorEnv)
    (h : (execServiceUrl env).deleteIssued = true) :
    (CPCall.assignServiceUrl, true) ∈ (execServiceUrl env).calls ∧
    (CPCall.getServiceDetails, true) ∈ (execServiceUrl env).calls := by
  revert h
  unfold execServiceUrl
  by_cases hu : env.serviceUrlOk
  · simp only [hu, if_true]
    intro hdel
    exact ⟨List.mem_cons_self _ _,
      List.mem_cons_of_mem _ (execProducts_mem env hdel)⟩
  · simp only [hu, Bool.false_eq_true, if_false]
    intro hdel
    simp at hdel

/-- ReqOnFail for the import stage. -/
theorem execImport_reqOnFail (env : ExecutorEnv) :
    ReqOnFail (execImport env) := by
  unfold execImport
  by_cases hi : env.importOk
  · simp only [hi, if_true]
    exact reqOnFail_withCall _ _ (execServiceUrl_reqOnFail env)
  · simp only [hi, Bool.false_eq_true, if_false]
    intro _
    exact ⟨rfl, rfl⟩

/-- DeleteLast for the import stage. -/
theorem execImport_deleteLast (env : ExecutorEnv) :
    DeleteLast env (execImport env) := by
  unfold execImport
  by_cases hi : env.importOk
  · simp only [hi, if_true]
    exact deleteLast_withCall env _ _ (execServiceUrl_deleteLast env)
  · simp only [hi, Bool.false_eq_true, if_false]
    intro hdel
    simp at hdel

/-- The import, service-URL and details calls are on record whenever the
delete was issued after the import stage. -/
theorem execImport_mem (env : ExecutorEnv)
    (h : (execImport env).deleteIssued = true) :
    (CPCall.importDefinition, true) ∈ (execImport env).calls ∧
    (CPCall.assignServiceUrl, true) ∈ (execImport env).calls ∧
    (CPCall.getServiceDetails, true) ∈ (execImport env).calls := by
  revert h
  unfold execImport
  by_cases hi : env.importOk
  · simp only [hi, if_true]
    intro hdel
    obtain ⟨h1, h2⟩ := execServiceUrl_mem env hdel
    exact ⟨List.mem_cons_self _ _, List.mem_cons_of_mem _ h1,
      List.mem_cons_of_mem _ h2⟩
  · simp only [hi, Bool.false_eq_true, if_false]
    intro hdel
    simp at hdel

/-- Every executor run either reaches the import stage or ends early with
no call issued, no status write and no delete. -/
theorem reconcileDeployment_cases (env : ExecutorEnv) :
    reconcileAPIMAPIDeployment env = execImport env ∨
    ∃ out, reconcileAPIMAPIDeployment env =
      ⟨out, [], none, false, false⟩ := by
  unfold reconcileAPIMAPIDeployment
  cases env.getDeployment <;> cases env.getApimApi <;> cases env.fetchOk <;>
    by_cases hid : env.clientID = ("") ∨ env.tenantID = ("") <;>
    cases env.tokenOk <;>
    first
      | exact Or.inl rfl
      | exact Or.inr ⟨_, rfl⟩
      | (rw [if_pos hid]; exact Or.inr ⟨_, rfl⟩)
      | (rw [if_neg hid]
         first
           | exact Or.inl rfl
           | exact Or.inr ⟨_, rfl⟩)

/-- ReqOnFail for a result with no recorded activity. -/
theorem reqOnFail_trivial (out : DeployOutcome) :
    ReqOnFail ⟨out, [], none, false, false⟩ := by
  rintro (⟨c, hc, _⟩ | h)
  · exact absurd hc (List.not_mem_nil c)
  · simp at h

/-- ReqOnFail for the whole executor run. -/
theorem reconcileDeployment_reqOnFail (env : ExecutorEnv) :
    ReqOnFail (reconcileAPIMAPIDeployment env) := by
  rcases reconcileDeployment_cases env with h | ⟨out, h⟩ <;> rw [h]
  · exact execImport_reqOnFail env
  · exact reqOnFail_trivial out

/-- DeleteLast and the mandatory-call record for the whole executor run. -/
theorem reconcileDeployment_deleteLast (env : ExecutorEnv) :
    DeleteLast env (reconcileAPIMAPIDeployment env) ∧
    ((reconcileAPIMAPIDeployment env).deleteIssued = true →
      (CPCall.importDefinition, true) ∈
        (reconcileAPIMAPIDeployment env).calls ∧
      (CPCall.assignServiceUrl, true) ∈
        (reconcileAPIMAPIDeployment env).calls ∧
      (CPCall.getServiceDetails, true) ∈
        (reconcileAPIMAPIDeployment env).calls) := by
  rcases reconcileDeployment_cases env with h | ⟨out, h⟩ <;> rw [h]
  · exact ⟨execImport_deleteLast env, execImport_mem env⟩
  · exact ⟨fun hh => by simp at hh, fun hh => by simp at hh⟩

/-! ## Claims C3, C7, C8 -/

/-- A sample work-order snapshot used by concrete executor runs. -/
def sampleDeployment : APIMAPIDeploymentSpec :=
  { serviceURL := ("https://orders.internal")
    routePrefixVal := ("/orders")
    openAPIDefinitionURL := ("https://orders.internal/openapi.json")
    productIDs := [("public")]
    tagIDs := []
    apimService := ("apim-prod")
    subscription := ("sub-1")
    resourceGroup := ("rg-1")
    apiID := ("orders-api")
    revision := ("")
    subscriptionRequired := false }

/-- Claim C3: whenever any issued control-plane step failed (import,
backend-URL patch, product assignment, tag assignment, service-host read)
or the status write failed, the run ends in a retried outcome (an explicit
requeue or an error return, which controller-runtime also requeues) and the
work-order delete is not issued; conversely the delete is issued only in
runs where every issued step and the status write succeeded, with the
import, the service-URL patch and the host read all on record. -/
theorem c3_failure_requeues_and_keeps_order (env : ExecutorEnv) :
    (((∃ c ∈ (reconcileAPIMAPIDeployment env).calls, c.2 = false) ∨
        (reconcileAPIMAPIDeployment env).statusWrite = some false) →
      (reconcileAPIMAPIDeployment env).outcome.isRequeue = true ∧
      (reconcileAPIMAPIDeployment env).deleteIssued = false) ∧
    ((reconcileAPIMAPIDeployment env).deleteIssued = true →
      (∀ c ∈ (reconcileAPIMAPIDeployment env).calls, c.2 = true) ∧
      (reconcileAPIMAPIDeployment env).statusWrite = some true ∧
      (CPCall.importDefinition, true) ∈
        (reconcileAPIMAPIDeployment env).calls ∧
      (CPCall.assignServiceUrl, true) ∈
        (reconcileAPIMAPIDeployment env).calls ∧
      (CPCall.getServiceDetails, true) ∈
        (reconcileAPIMAPIDeployment env).calls) := by
  refine ⟨reconcileDeployment_reqOnFail env, ?_⟩
  intro h
  obtain ⟨hall, hsw, _, _⟩ := (reconcileDeployment_deleteLast env).1 h
  obtain ⟨h1, h2, h3⟩ := (reconcileDeployment_deleteLast env).2 h
  exact ⟨hall, hsw, h1, h2, h3⟩

/-- An executor run in which the import step fails. -/
def importFailEnv : ExecutorEnv :=
  ⟨.found, sampleDeployment, .found, true, ("cid"), ("tid"), true, false,
    true, true, true, true, true, .ok⟩

/-- Witness for C3: with a failing import the run requeues and the work
order survives. -/
theorem c3_failure_requeues_and_keeps_order_witness :
    (reconcileAPIMAPIDeployment importFailEnv).outcome.isRequeue = true ∧
    (reconcileAPIMAPIDeployment importFailEnv).deleteIssued = false :=
  (c3_failure_requeues_and_keeps_order importFailEnv).1
    (Or.inl ⟨(CPCall.importDefinition, false), by decide, rfl⟩)

/-- An executor run in which every external call succeeds, on a work order
that disables the subscription requirement. -/
def allSuccessEnv : ExecutorEnv :=
  ⟨.found, sampleDeployment, .found, true, ("cid"), ("tid"), true, true,
    true, true, true, true, true, .ok⟩

/-- Claim C7 at the code: the fully successful executor run issues the
import, the service-URL patch, the product assignment and the host read,
and never invokes the SetSubscriptionRequired client operation, although
the work order carries subscriptionRequired = false. -/
theorem c7_successful_run_never_patches_subscription :
    (reconcileAPIMAPIDeployment allSuccessEnv).outcome = DeployOutcome.done ∧
    (reconcileAPIMAPIDeployment allSuccessEnv).deleted = true ∧
    (reconcileAPIMAPIDeployment allSuccessEnv).calls.map Prod.fst =
      [CPCall.importDefinition, CPCall.assignServiceUrl,
        CPCall.assignProducts, CPCall.getServiceDetails] ∧
    CPCall.setSubscriptionRequired ∉
      (reconcileAPIMAPIDeployment allSuccessEnv).calls.map Prod.fst ∧
    allSuccessEnv.deployment.subscriptionRequired = false := by
  decide

/-- An executor run that reaches the final delete, which reports
not-found. -/
def deleteNotFoundEnv : ExecutorEnv :=
  ⟨.found, sampleDeployment, .found, true, ("cid"), ("tid"), true, true,
    true, true, true, true, true, .notFound⟩

/-- Counterexample to C8 as stated: a run whose final delete finds the work
order already gone returns an error outcome instead of succeeding. -/
theorem c8_not_found_delete_counterexample :
    (reconcileAPIMAPIDeployment deleteNotFoundEnv).deleteIssued = true ∧
    (reconcileAPIMAPIDeployment deleteNotFoundEnv).outcome =
      DeployOutcome.errored ∧
    (reconcileAPIMAPIDeployment deleteNotFoundEnv).deleted = false := by
  decide

/-- Claim C8 as amended: when the executor reaches the final delete and the
work order is already gone, the not-found is surfaced as an error return
(which is then retried); it is not treated as success within the run. -/
theorem c8_not_found_delete_surfaces_error (env : ExecutorEnv)
    (h1 : (reconcileAPIMAPIDeployment env).deleteIssued = true)
    (h2 : env.deleteResult = K8sDelete.notFound) :
    (reconcileAPIMAPIDeployment env).outcome = DeployOutcome.errored ∧
    (reconcileAPIMAPIDeployment env).deleted = false := by
  obtain ⟨_, _, hout, hdel⟩ := (reconcileDeployment_deleteLast env).1 h1
  have hE : execDelete env =
      ⟨DeployOutcome.errored, [], none, true, false⟩ := by
    unfold execDelete
    rw [h2]
  rw [hout, hdel, hE]
  exact ⟨rfl, rfl⟩

/-- Witness for the amended C8 at a concrete run. -/
theorem c8_not_found_delete_surfaces_error_witness :
    (reconcileAPIMAPIDeployment deleteNotFoundEnv).outcome =
      DeployOutcome.errored ∧
    (reconcileAPIMAPIDeployment deleteNotFoundEnv).deleted = false :=
  c8_not_found_delete_surfaces_error deleteNotFoundEnv (by decide) rfl

/-! ## Status projector
Embedding of APIMAPIReconciler.Reconcile (apimapi_controller.go):
annotations are association lists (the Go nil map and the empty map both
behave as the empty list). -/

/-- The well-known annotation key the projector writes. -/
def externalLinkKey : String := ("link.argocd.argoproj.io/external-link")

/-- Lookup in an annotation map. -/
def lookupAnnot : List (String × String) → String → Option String
  | [], _ => none
  | (k, v) :: rest, key => if k = key then some v else lookupAnnot rest key

/-- Map update m[key] = v of an annotation map. -/
def setAnnot : List (String × String) → String → String →
    List (String × String)
  | [], key, v => [(key, v)]
  | (k, w) :: rest, key, v =>
    if k = key then (k, v) :: rest else (k, w) :: setAnnot rest key v

/-- The APIMAPI record as the projector sees it. -/
structure APIMAPIRecord where
  annotations : List (String × String)
  spec : APIMAPISpec
  status : APIMAPIStatus
deriving Repr, DecidableEq

/-- Result of a projector run: the stored record afterwards (none when the
record was not found), whether a Patch call was issued, the merge-patch
diff it carried (computed against the pre-assignment copy, so empty exactly
when the annotation already held the status host), and the outcome. -/
structure ProjectorResult where
  record : Option APIMAPIRecord
  patchIssued : Bool
  patchBody : List (String × String)
  outcome : DeployOutcome
deriving Repr, DecidableEq

/-- Embedding of APIMAPIReconciler.Reconcile: fetch the record (not-found
ends the run cleanly), set the external-link annotation to Status.ApiHost
unconditionally, and issue the merge patch; a failed patch is returned as
an error and leaves the stored record unchanged. -/
def reconcileAPIMAPI (get : K8sGet) (rec : APIMAPIRecord) (patchOk : Bool) :
    ProjectorResult :=
  match get with
  | .notFound => ⟨none, false, [], .done⟩
  | .errored => ⟨none, false, [], .errored⟩
  | .found =>
    let updated :=
      { rec with annotations :=
          setAnnot rec.annotations externalLinkKey rec.status.apiHost }
    let diff :=
      if lookupAnnot rec.annotations externalLinkKey =
          some rec.status.apiHost then []
      else [(externalLinkKey, rec.status.apiHost)]
    if patchOk then ⟨some updated, true, diff, .done⟩
    else ⟨some rec, true, diff, .errored⟩

/-- Updating a key makes it hold the new value. -/
theorem lookupAnnot_setAnnot_self (m : List (String × String))
    (key v : String) : lookupAnnot (setAnnot m key v) key = some v := by
  induction m with
  | nil => simp [setAnnot, lookupAnnot]
  | cons head rest ih =>
    obtain ⟨k, w⟩ := head
    by_cases hk : k = key
    · simp [setAnnot, lookupAnnot, hk]
    · simp [setAnnot, lookupAnnot, hk, ih]

/-- Updating a key leaves every other key unchanged. -/
theorem lookupAnnot_setAnnot_other (m : List (String × String))
    (key v k : String) (h : k ≠ key) :
    lookupAnnot (setAnnot m key v) k = lookupAnnot m k := by
  have hks : ¬ key = k := fun hc => h hc.symm
  induction m with
  | nil => simp [setAnnot, lookupAnnot, hks]
  | cons head rest ih =>
    obtain ⟨k0, w⟩ := head
    by_cases hk : k0 = key
    · subst hk
      simp [setAnnot, lookupAnnot, hks]
    · by_cases hq : k0 = k
      · subst hq
        simp [setAnnot, lookupAnnot, hk]
      · simp [setAnnot, lookupAnnot, hk, hq, ih]

/-- A record whose external-link annotation already equals the status
host. -/
def equalAnnotRecord : APIMAPIRecord :=
  { annotations := [(externalLinkKey, ("https://gw.example.net/orders"))]
    spec :=
      { serviceURL := ("https://orders.internal")
        routePrefixVal := ("/orders")
        openAPIDefinitionURL := ("https://orders.internal/openapi.json")
        productIDs := [("public")]
        tagIDs := []
        apimService := ("apim-prod")
        apiID := ("orders-api")
        subscriptionRequired := true }
    status :=
      { importedAt := ("2025-01-01T00:00:00Z")
        status := ("OK")
        apiHost := ("https://gw.example.net/orders")
        developerPortalHost := ("https://portal.example.net") } }

/-- Counterexample to C9 as stated: even when the annotation already equals
Status.ApiHost the projector still issues the patch call, so the write is
not skipped. -/
theorem c9_unconditional_write_counterexample :
    lookupAnnot equalAnnotRecord.annotations externalLinkKey =
      some equalAnnotRecord.status.apiHost ∧
    (reconcileAPIMAPI K8sGet.found equalAnnotRecord true).patchIssued =
      true := by
  decide

/-- Claim C9 as amended: the projector always issues the merge patch; the
patch body is empty exactly when the annotation already equals
Status.ApiHost (so a redundant patch carries no change), and a successful
run changes nothing but the external-link annotation, which afterwards
holds Status.ApiHost. -/
theorem c9_projector_patch_scope (rec : APIMAPIRecord) (patchOk : Bool) :
    (reconcileAPIMAPI K8sGet.found rec patchOk).patchIssued = true ∧
    ((reconcileAPIMAPI K8sGet.found rec patchOk).patchBody = [] ↔
      lookupAnnot rec.annotations externalLinkKey =
        some rec.status.apiHost) ∧
    (patchOk = true →
      ∃ updated,
        (reconcileAPIMAPI K8sGet.found rec patchOk).record = some updated ∧
        updated.spec = rec.spec ∧
        updated.status = rec.status ∧
        lookupAnnot updated.annotations externalLinkKey =
          some rec.status.apiHost ∧
        (∀ k, k ≠ externalLinkKey →
          lookupAnnot updated.annotations k =
            lookupAnnot rec.annotations k)) := by
  refine ⟨?_, ?_, ?_⟩
  · cases patchOk <;> rfl
  · by_cases heq : lookupAnnot rec.annotations externalLinkKey =
        some rec.status.apiHost
    · cases patchOk <;> simp [reconcileAPIMAPI, heq]
    · cases patchOk <;> simp [reconcileAPIMAPI, heq]
  · intro hp
    subst hp
    refine ⟨_, rfl, rfl, rfl, lookupAnnot_setAnnot_self _ _ _, ?_⟩
    intro k hk
    exact lookupAnnot_setAnnot_other _ _ _ _ hk

/-- A record whose annotation differs from the status host. -/
def staleAnnotRecord : APIMAPIRecord :=
  { equalAnnotRecord with
      annotations := [(externalLinkKey, ("https://old.example.net/orders")),
        (("team"), ("payments"))] }

/-- Witness for the amended C9: a successful run on a stale record. -/
theorem c9_projector_patch_scope_witness :
    ∃ updated,
      (reconcileAPIMAPI K8sGet.found staleAnnotRecord true).record =
        some updated ∧
      updated.spec = staleAnnotRecord.spec ∧
      updated.status = staleAnnotRecord.status ∧
      lookupAnnot updated.annotations externalLinkKey =
        some staleAnnotRecord.status.apiHost ∧
      (∀ k, k ≠ externalLinkKey →
        lookupAnnot updated.annotations k =
          lookupAnnot staleAnnotRecord.annotations k) :=
  (c9_projector_patch_scope staleAnnotRecord true).2.2 rfl

end AzureApimOperator
